import Mathlib

/-!
Shallow embedding of `Files/update_git.py` (repository Twitr/Free-V2ray-Collector).

The whole program is one orchestration procedure, `update_with_token`, that
stages/commits local changes, rebases on the remote, and pushes with a
token-credentialed URL.  Every external effect (environment variables,
filesystem lock files, git subprocess outcomes) is supplied by an oracle
record `World`; the embedding returns the outcome of the run together with
the ordered list of mutating actions the run performed, mirroring the
Python control flow line by line.
-/

namespace UpdateGit

/-- `THREAD_ERR` constant from the source: the transient-network signature. -/
def THREAD_ERR : String := "getaddrinfo() thread failed to start"

/-- Staleness threshold of `_remove_stale_index_lock` (`max_age_sec = 30*60`). -/
def maxAgeSec : Int := 30 * 60

/-- Whether `p` is a prefix of `s` (on character lists). -/
def matchesAt : List Char → List Char → Bool
  | [], _ => true
  | _ :: _, [] => false
  | p :: ps, c :: cs => p = c && matchesAt ps cs

/-- Whether `pat` occurs contiguously inside `s` (on character lists). -/
def hasSub (pat : List Char) : List Char → Bool
  | [] => pat.isEmpty
  | c :: cs => matchesAt pat (c :: cs) || hasSub pat cs

/-- Boolean substring test, embedding Python `pat in s`. -/
def substrOf (pat s : String) : Bool :=
  hasSub pat.toList s.toList

/-- Embedding of Python `msg.lower()`, as lowercasing mapped over the
characters of the message. -/
def lowerChars (s : String) : List Char :=
  s.toList.map Char.toLower

/-- Mutating actions the run can perform, in the order it performs them.
Each constructor corresponds to one side-effecting call in the source. -/
inductive Action where
  | acquireLock
  | releaseLock
  | deleteIndexLock
  | ensureIdentity
  | stageAll
  | commit (msg : String)
  | setTerminalPrompt
  | fetch (remote : String)
  | pullRebase (remote : String) (branch : String)
  | setPushUrl (url : String)
  | pushPlain (remote : String) (branch : String)
  | pushRefspec (remote : String) (refspec : String)
  deriving Repr, DecidableEq

/-- Reasons the run returns early with a printed message instead of failing. -/
inductive SkipReason where
  | disabled
  | lockContention
  | lowResources
  | liveIndexLock
  deriving Repr, DecidableEq

/-- Fatal errors the run can raise (Python exceptions that propagate). -/
inductive SyncError where
  | missingToken
  | concurrentOperation (ageSeconds : Int)
  | rebaseConflict (msg : String)
  | pushFailed (remote : String) (branch : String)
  deriving Repr, DecidableEq

/-- Result of one run of `update_with_token`. -/
inductive Outcome where
  | success (remote : String) (branch : String)
  | skipped (r : SkipReason)
  | error (e : SyncError)
  deriving Repr, DecidableEq

/-- Oracle for everything the procedure observes from its environment:
environment variables, lock-file state, clock, repository state and the
success/failure of each git subprocess call. -/
structure World where
  /-- `os.getenv("SKIP_PUSH") == "1"` -/
  skipPush : Bool
  /-- `os.getenv("github_token")`: `none` = unset, `some ""` = set but empty. -/
  githubToken : Option String
  /-- whether `proc_lock.acquire(timeout=10)` succeeds (no `Timeout`). -/
  lockAcquireOk : Bool
  /-- `os.path.exists(".git/index.lock")` -/
  indexLockExists : Bool
  /-- `os.path.getmtime` of the index lock; `none` models an `OSError`. -/
  indexLockMtime : Option Int
  /-- `time.time()` -/
  now : Int
  /-- `repo.is_dirty(untracked_files=True)` after `git add -A`. -/
  isDirty : Bool
  /-- `iran_timestamp()` rendered for the commit message. -/
  timestamp : String
  /-- `repo.head.is_detached` -/
  headDetached : Bool
  /-- `repo.active_branch.name` -/
  activeBranch : String
  /-- message of the `GitCommandError` raised by `repo.git.fetch`, if any. -/
  fetchError : Option String
  /-- message of the `GitCommandError` raised by `repo.git.pull`, if any. -/
  pullError : Option String
  /-- `remote.url`: the configured remote URL before the push section. -/
  remoteUrl : String
  /-- whether the plain `repo.git.push(remote, branch)` succeeds. -/
  pushPlainOk : Bool
  /-- whether the retry push `repo.git.push(remote, refspec, "-u")` succeeds. -/
  pushRetryOk : Bool
  deriving Repr, DecidableEq

/-- Result of `_remove_stale_index_lock`: the marker was absent, was removed
as stale (with its computed age), or is recent (the function raises). -/
inductive LockCheck where
  | absent
  | removed (age : Int)
  | recent (age : Int)
  deriving Repr, DecidableEq

/-- Embedding of `_remove_stale_index_lock`.  An `OSError` from `getmtime`
(`mtime = none`) makes `age = max_age_sec + 1`; the marker is removed when
`age >= max_age_sec`, otherwise a `RuntimeError` is raised. -/
def removeStaleIndexLock (lockPresent : Bool) (mtime : Option Int) (now : Int) :
    LockCheck :=
  if ¬ lockPresent then LockCheck.absent
  else
    let age : Int :=
      match mtime with
      | some m => now - m
      | none => maxAgeSec + 1
    if age ≥ maxAgeSec then LockCheck.removed age else LockCheck.recent age

/-- `true` exactly when `_remove_stale_index_lock` raises. -/
def isRecent : LockCheck → Bool
  | LockCheck.recent _ => true
  | _ => false

/-- Embedding of the branch resolution
`branch or (repo.active_branch.name if not repo.head.is_detached else "main")`.
Python `or` falls through on `None` and on the empty string. -/
def resolveBranch (branch : Option String) (detached : Bool) (active : String) :
    String :=
  match branch with
  | some b => if b = "" then (if ¬ detached then active else "main") else b
  | none => if ¬ detached then active else "main"

/-- Embedding of `original.split(":", 1)[1]`: everything after the first colon. -/
def afterFirstColon (s : String) : String :=
  match s.splitOn (":") with
  | [] => ""
  | _ :: rest => String.intercalate (":") rest

/-- The authority component of the part of a URL after `scheme://`. -/
def netlocOf (r : String) : String :=
  match r.splitOn ("/") with
  | [] => ""
  | n :: _ => n

/-- Embedding of the push-URL construction: normalize an SSH-style URL to
HTTPS, then splice `x-access-token:<token>@` in front of the authority. -/
def buildPushUrl (original token : String) : String :=
  let https :=
    if String.startsWith original ("http") then original
    else "https://github.com/" ++ afterFirstColon original
  match https.splitOn ("://") with
  | scheme :: r0 :: rest =>
    let r := String.intercalate ("://") (r0 :: rest)
    let netloc := netlocOf r
    let path := String.drop r netloc.length
    scheme ++ "://" ++ "x-access-token:" ++ token ++ "@" ++ netloc ++ path
  | _ => https

/-- Classification of a `GitCommandError` message by the three `if` tests in
the `except` block of the fetch/rebase step. -/
inductive ErrClass where
  | transient
  | liveLock
  | conflict
  | other
  deriving Repr, DecidableEq

/-- The three signature tests, in source order: `THREAD_ERR in msg`,
`"index.lock" in msg`, `"conflict" in msg.lower() or "merge" in msg.lower()`. -/
def classifyGitError (msg : String) : ErrClass :=
  if substrOf THREAD_ERR msg then ErrClass.transient
  else if substrOf ("index.lock") msg then ErrClass.liveLock
  else if hasSub ("conflict").toList (lowerChars msg) ||
      hasSub ("merge").toList (lowerChars msg) then
    ErrClass.conflict
  else ErrClass.other

/-- The push critical section (`try: set_url ... push ... finally: set_url`).
The push URL is set to the credentialed form; the plain push is attempted,
and on `GitCommandError` the explicit-refspec upstream-tracking form is
attempted once; the `finally` always restores the original URL. -/
def pushStep (w : World) (remote branch token : String) :
    Outcome × List Action :=
  let original := w.remoteUrl
  let pushUrl := buildPushUrl original token
  if w.pushPlainOk then
    (Outcome.success remote branch,
      [Action.setPushUrl pushUrl, Action.pushPlain remote branch,
       Action.setPushUrl original])
  else
    let refspec := "HEAD:refs/heads/" ++ branch
    if w.pushRetryOk then
      (Outcome.success remote branch,
        [Action.setPushUrl pushUrl, Action.pushPlain remote branch,
         Action.pushRefspec remote refspec, Action.setPushUrl original])
    else
      (Outcome.error (SyncError.pushFailed remote branch),
        [Action.setPushUrl pushUrl, Action.pushPlain remote branch,
         Action.pushRefspec remote refspec, Action.setPushUrl original])

/-- Embedding of `update_with_token(remote_name, branch)`.  Returns the
outcome together with the ordered trace of mutating actions performed. -/
def update_with_token (w : World) (remote_name : String)
    (branch : Option String) : Outcome × List Action :=
  if w.skipPush then (Outcome.skipped SkipReason.disabled, [])
  else
    match w.githubToken with
    | none => (Outcome.error SyncError.missingToken, [])
    | some token =>
      if token = "" then (Outcome.error SyncError.missingToken, [])
      else if ¬ w.lockAcquireOk then (Outcome.skipped SkipReason.lockContention, [])
      else
        -- body of the outer try; `finally` releases the process lock.
        let fin : Outcome × List Action → Outcome × List Action :=
          fun p => (p.1, Action.acquireLock :: p.2 ++ [Action.releaseLock])
        match removeStaleIndexLock w.indexLockExists w.indexLockMtime w.now with
        | LockCheck.recent age =>
          fin (Outcome.error (SyncError.concurrentOperation age), [])
        | chk =>
          let a1 : List Action :=
            match chk with
            | LockCheck.removed _ => [Action.deleteIndexLock]
            | _ => []
          let a2 := a1 ++ [Action.ensureIdentity, Action.stageAll]
          let a3 := a2 ++
            (if w.isDirty then [Action.commit ("✅ " ++ w.timestamp ++ " ✅")]
             else [])
          let default_branch := resolveBranch branch w.headDetached w.activeBranch
          let a4 := a3 ++ [Action.setTerminalPrompt, Action.fetch remote_name]
          let handle : String → List Action → Outcome × List Action :=
            fun msg acts =>
              match classifyGitError msg with
              | ErrClass.transient =>
                fin (Outcome.skipped SkipReason.lowResources, acts)
              | ErrClass.liveLock =>
                fin (Outcome.skipped SkipReason.liveIndexLock, acts)
              | ErrClass.conflict =>
                fin (Outcome.error (SyncError.rebaseConflict msg), acts)
              | ErrClass.other =>
                -- no re-raise in the source: fall through to the push section
                let p := pushStep w remote_name default_branch token
                fin (p.1, acts ++ p.2)
          match w.fetchError with
          | some msg => handle msg a4
          | none =>
            let a5 := a4 ++ [Action.pullRebase remote_name default_branch]
            match w.pullError with
            | some msg => handle msg a5
            | none =>
              let p := pushStep w remote_name default_branch token
              fin (p.1, a5 ++ p.2)

/-- Fold step tracking the most recent `setPushUrl` value. -/
def setUrlStep (acc : Option String) (a : Action) : Option String :=
  match a with
  | Action.setPushUrl u => some u
  | _ => acc

/-- The last value the remote push URL was set to during the run, if any. -/
def lastSetUrl (acts : List Action) : Option String :=
  acts.foldl setUrlStep none

/-- Whether an action mutates the remote push URL. -/
def isSetUrl : Action → Bool
  | Action.setPushUrl _ => true
  | _ => false

/-- Whether the run reached the push critical section (mutated the URL). -/
def reachedPushSection (acts : List Action) : Bool :=
  acts.any isSetUrl

/-- Whether an action is the retry push (explicit refspec, `-u`). -/
def isRetryPush : Action → Bool
  | Action.pushRefspec _ _ => true
  | _ => false

/-- Whether an action is the rebase pull. -/
def isPull : Action → Bool
  | Action.pullRebase _ _ => true
  | _ => false

/-- Whether an outcome is the `ConcurrentOperation` fatal error. -/
def isConcurrentErr : Outcome → Bool
  | Outcome.error (SyncError.concurrentOperation _) => true
  | _ => false

/-- A concrete oracle for the witnesses: clean environment, dirty tree,
all git calls succeed. -/
def wBase : World where
  skipPush := false
  githubToken := some ("tok")
  lockAcquireOk := true
  indexLockExists := false
  indexLockMtime := none
  now := 10000
  isDirty := true
  timestamp := "2026-01-01 00:00:00"
  headDetached := false
  activeBranch := "main"
  fetchError := none
  pullError := none
  remoteUrl := "https://github.com/u/repo.git"
  pushPlainOk := true
  pushRetryOk := true

/-- Witness world for C5: marker aged exactly 30 minutes (boundary case). -/
def w5 : World :=
  { wBase with indexLockExists := true, indexLockMtime := some 8200 }

/-- Witness world for C9: marker present, `getmtime` raises `OSError`. -/
def w9 : World :=
  { wBase with indexLockExists := true, indexLockMtime := none }

/-- World for C2: the rebase pull fails with a message matching none of the
three recognized signatures. -/
def w2 : World :=
  { wBase with pullError := some ("remote end hung up unexpectedly") }

/-- World for C7: the plain push is rejected, the refspec retry succeeds. -/
def w7 : World :=
  { wBase with pushPlainOk := false, pushRetryOk := true }

/-- World for C8: current branch `dev`, head attached. -/
def w8 : World :=
  { wBase with activeBranch := "dev" }

theorem removeStale_absent (mt : Option Int) (now : Int) :
    removeStaleIndexLock false mt now = LockCheck.absent := by
  simp [removeStaleIndexLock]

theorem removeStale_recent (m now : Int) (h : now - m < maxAgeSec) :
    removeStaleIndexLock true (some m) now = LockCheck.recent (now - m) := by
  simp [removeStaleIndexLock, not_le.mpr h]

theorem removeStale_removed (m now : Int) (h : maxAgeSec ≤ now - m) :
    removeStaleIndexLock true (some m) now = LockCheck.removed (now - m) := by
  simp [removeStaleIndexLock, h]

theorem removeStale_oserror (now : Int) :
    removeStaleIndexLock true none now = LockCheck.removed (maxAgeSec + 1) := by
  simp [removeStaleIndexLock]

/-- C6: with the disable environment switch set to an affirmative value
(`SKIP_PUSH == "1"`), `update_with_token` returns the skip outcome at once
and its trace of mutating actions is empty: no lock file, stage, commit,
fetch, rebase, URL change, or push. -/
theorem C6_disable_no_mutation (w : World) (remote : String)
    (branch : Option String) (h : w.skipPush = true) :
    update_with_token w remote branch = (Outcome.skipped SkipReason.disabled, []) := by
  simp [update_with_token, h]

theorem C6_disable_no_mutation_witness :
    update_with_token { wBase with skipPush := true } ("origin") none =
      (Outcome.skipped SkipReason.disabled, []) :=
  C6_disable_no_mutation { wBase with skipPush := true } ("origin") none rfl

/-- C10: the disable-flag check precedes credential validation: with the
disable flag set and the credential variable absent, the call returns the
skip outcome and does not raise the missing-credential error. -/
theorem C10_disable_precedes_token (w : World) (remote : String)
    (branch : Option String) (hd : w.skipPush = true)
    (ht : w.githubToken = none) :
    (update_with_token w remote branch).1 = Outcome.skipped SkipReason.disabled ∧
    (update_with_token w remote branch).1 ≠ Outcome.error SyncError.missingToken := by
  simp [update_with_token, hd]

theorem C10_disable_precedes_token_witness :
    (update_with_token { wBase with skipPush := true, githubToken := none }
        ("origin") none).1 = Outcome.skipped SkipReason.disabled ∧
    (update_with_token { wBase with skipPush := true, githubToken := none }
        ("origin") none).1 ≠ Outcome.error SyncError.missingToken :=
  C10_disable_precedes_token { wBase with skipPush := true, githubToken := none }
    ("origin") none rfl rfl

/-- C3: with the disable flag unset and the credential variable absent or
empty, `update_with_token` raises the missing-credential error and its
action trace is empty: the error comes before the exclusivity lock is
acquired and before any repository or filesystem mutation. -/
theorem C3_missing_token (w : World) (remote : String) (branch : Option String)
    (hd : w.skipPush = false)
    (ht : w.githubToken = none ∨ w.githubToken = some ("")) :
    update_with_token w remote branch = (Outcome.error SyncError.missingToken, []) := by
  rcases ht with h | h <;> simp [update_with_token, hd, h]

theorem C3_missing_token_witness :
    update_with_token { wBase with githubToken := none } ("origin") none =
      (Outcome.error SyncError.missingToken, []) :=
  C3_missing_token { wBase with githubToken := none } ("origin") none rfl (Or.inl rfl)

/-- C4: when the foreign `index.lock` marker exists with age strictly below
the 30-minute threshold, the run fails with the `ConcurrentOperation`
error, the marker is not deleted, and no stage/commit/fetch/rebase/push
step runs: the whole trace is just lock acquire and release. -/
theorem C4_recent_foreign_lock (w : World) (remote : String)
    (branch : Option String) (t : String) (m : Int)
    (hd : w.skipPush = false) (ht : w.githubToken = some t) (hne : t ≠ "")
    (hl : w.lockAcquireOk = true)
    (hex : w.indexLockExists = true) (hm : w.indexLockMtime = some m)
    (hage : w.now - m < maxAgeSec) :
    update_with_token w remote branch =
      (Outcome.error (SyncError.concurrentOperation (w.now - m)),
       [Action.acquireLock, Action.releaseLock]) := by
  unfold update_with_token
  rw [hd, ht, hl, hex, hm, removeStale_recent m w.now hage]
  simp [hne]

theorem C4_recent_foreign_lock_witness :
    update_with_token
        { wBase with indexLockExists := true, indexLockMtime := some 9000 }
        ("origin") none =
      (Outcome.error (SyncError.concurrentOperation 1000),
       [Action.acquireLock, Action.releaseLock]) :=
  C4_recent_foreign_lock
    { wBase with indexLockExists := true, indexLockMtime := some 9000 }
    ("origin") none ("tok") 9000 rfl rfl (by decide) rfl rfl rfl (by decide)

/-- C5: when the foreign `index.lock` marker exists with age at or above the
30-minute threshold (equality included), the run deletes the marker and
proceeds with the remaining steps, and does not raise `ConcurrentOperation`. -/
theorem C5_stale_lock_removed (w : World) (remote : String)
    (branch : Option String) (t : String) (m : Int)
    (hd : w.skipPush = false) (ht : w.githubToken = some t) (hne : t ≠ "")
    (hl : w.lockAcquireOk = true)
    (hex : w.indexLockExists = true) (hm : w.indexLockMtime = some m)
    (hage : maxAgeSec ≤ w.now - m) :
    Action.deleteIndexLock ∈ (update_with_token w remote branch).2 ∧
    Action.stageAll ∈ (update_with_token w remote branch).2 ∧
    isConcurrentErr (update_with_token w remote branch).1 = false := by
  unfold update_with_token
  rw [hd, ht, hl, hex, hm, removeStale_removed m w.now hage]
  rcases hfe : w.fetchError with _ | msg
  · rcases hpe : w.pullError with _ | msg
    · cases hpp : w.pushPlainOk <;> cases hpr : w.pushRetryOk <;>
        simp [hne, pushStep, hpp, hpr, isConcurrentErr]
    · rcases hc : classifyGitError msg with _ | _ | _ | _ <;>
        cases hpp : w.pushPlainOk <;> cases hpr : w.pushRetryOk <;>
        simp [hne, hc, pushStep, hpp, hpr, isConcurrentErr]
  · rcases hc : classifyGitError msg with _ | _ | _ | _ <;>
      cases hpp : w.pushPlainOk <;> cases hpr : w.pushRetryOk <;>
      simp [hne, hc, pushStep, hpp, hpr, isConcurrentErr]

theorem C5_stale_lock_removed_witness :
    Action.deleteIndexLock ∈ (update_with_token w5 ("origin") none).2 ∧
    Action.stageAll ∈ (update_with_token w5 ("origin") none).2 ∧
    isConcurrentErr (update_with_token w5 ("origin") none).1 = false :=
  C5_stale_lock_removed w5 ("origin") none ("tok") 8200 rfl rfl (by decide)
    rfl rfl rfl (by decide)

/-- C9: when the foreign `index.lock` marker exists but reading its
modification time fails with an `OSError`, the marker is treated as stale:
it is deleted, the run proceeds, and `ConcurrentOperation` is not raised. -/
theorem C9_oserror_treated_stale (w : World) (remote : String)
    (branch : Option String) (t : String)
    (hd : w.skipPush = false) (ht : w.githubToken = some t) (hne : t ≠ "")
    (hl : w.lockAcquireOk = true)
    (hex : w.indexLockExists = true) (hm : w.indexLockMtime = none) :
    Action.deleteIndexLock ∈ (update_with_token w remote branch).2 ∧
    Action.stageAll ∈ (update_with_token w remote branch).2 ∧
    isConcurrentErr (update_with_token w remote branch).1 = false := by
  unfold update_with_token
  rw [hd, ht, hl, hex, hm, removeStale_oserror w.now]
  rcases hfe : w.fetchError with _ | msg
  · rcases hpe : w.pullError with _ | msg
    · cases hpp : w.pushPlainOk <;> cases hpr : w.pushRetryOk <;>
        simp [hne, pushStep, hpp, hpr, isConcurrentErr]
    · rcases hc : classifyGitError msg with _ | _ | _ | _ <;>
        cases hpp : w.pushPlainOk <;> cases hpr : w.pushRetryOk <;>
        simp [hne, hc, pushStep, hpp, hpr, isConcurrentErr]
  · rcases hc : classifyGitError msg with _ | _ | _ | _ <;>
      cases hpp : w.pushPlainOk <;> cases hpr : w.pushRetryOk <;>
      simp [hne, hc, pushStep, hpp, hpr, isConcurrentErr]

theorem C9_oserror_treated_stale_witness :
    Action.deleteIndexLock ∈ (update_with_token w9 ("origin") none).2 ∧
    Action.stageAll ∈ (update_with_token w9 ("origin") none).2 ∧
    isConcurrentErr (update_with_token w9 ("origin") none).1 = false :=
  C9_oserror_treated_stale w9 ("origin") none ("tok") rfl rfl (by decide)
    rfl rfl rfl

theorem foldl_setUrlStep_pushStep (w : World) (r b t : String)
    (acc : Option String) :
    List.foldl setUrlStep acc (pushStep w r b t).2 = some w.remoteUrl := by
  unfold pushStep
  cases hpp : w.pushPlainOk <;> cases hpr : w.pushRetryOk <;>
    simp [hpp, hpr, setUrlStep]

/-- Any run that mutated the push URL passed all the guards; its outcome is
that of `pushStep` on the resolved branch, the last URL write of its trace
is the original remote URL, and its retry pushes are exactly those of
`pushStep`. -/
theorem push_reached_facts (w : World) (remote : String) (branch : Option String)
    (h : reachedPushSection (update_with_token w remote branch).2 = true) :
    ∃ t, w.githubToken = some t ∧
      (update_with_token w remote branch).1 =
        (pushStep w remote (resolveBranch branch w.headDetached w.activeBranch) t).1 ∧
      lastSetUrl (update_with_token w remote branch).2 = some w.remoteUrl ∧
      List.countP isRetryPush (update_with_token w remote branch).2 =
        List.countP isRetryPush
          (pushStep w remote (resolveBranch branch w.headDetached w.activeBranch) t).2 := by
  by_cases hsp : w.skipPush
  · simp [update_with_token, hsp, reachedPushSection] at h
  rcases htok : w.githubToken with _ | t
  · simp [update_with_token, hsp, htok, reachedPushSection] at h
  by_cases htz : t = ""
  · simp [update_with_token, hsp, htok, htz, reachedPushSection] at h
  by_cases hlok : w.lockAcquireOk
  case neg => simp [update_with_token, hsp, htok, htz, hlok, reachedPushSection] at h
  refine ⟨t, rfl, ?_⟩
  rcases hchk : removeStaleIndexLock w.indexLockExists w.indexLockMtime w.now
    with _ | a | a
  on_goal 3 =>
    simp [update_with_token, hsp, htok, htz, hlok, hchk, reachedPushSection,
      isSetUrl] at h
  all_goals (
    rcases hfe : w.fetchError with _ | msg
    · rcases hpe : w.pullError with _ | msg
      · cases hdirty : w.isDirty <;>
          simp [update_with_token, hsp, htok, htz, hlok, hchk, hfe, hpe, hdirty,
            reachedPushSection, isSetUrl, isRetryPush, lastSetUrl,
            List.foldl_append, foldl_setUrlStep_pushStep, setUrlStep,
            List.countP_append, List.countP_cons] at h ⊢
      · rcases hc : classifyGitError msg with _ | _ | _ | _ <;>
          cases hdirty : w.isDirty <;>
          simp [update_with_token, hsp, htok, htz, hlok, hchk, hfe, hpe, hc,
            hdirty, reachedPushSection, isSetUrl, isRetryPush, lastSetUrl,
            List.foldl_append, foldl_setUrlStep_pushStep, setUrlStep,
            List.countP_append, List.countP_cons] at h ⊢
    · rcases hc : classifyGitError msg with _ | _ | _ | _ <;>
        cases hdirty : w.isDirty <;>
        simp [update_with_token, hsp, htok, htz, hlok, hchk, hfe, hc, hdirty,
          reachedPushSection, isSetUrl, isRetryPush, lastSetUrl,
          List.foldl_append, foldl_setUrlStep_pushStep, setUrlStep,
          List.countP_append, List.countP_cons] at h ⊢)

/-- C1: every run of `update_with_token` that reached the push critical
section (the remote push URL was rewritten to the credentialed form)
restores the remote URL on every exit path — push success, push failure,
or an exception from the section: the last URL write in the trace is the
original URL (round trip `restore(mutate(url)) = url`). -/
theorem C1_url_restored (w : World) (remote : String) (branch : Option String)
    (h : reachedPushSection (update_with_token w remote branch).2 = true) :
    lastSetUrl (update_with_token w remote branch).2 = some w.remoteUrl := by
  obtain ⟨t, -, -, hurl, -⟩ := push_reached_facts w remote branch h
  exact hurl

theorem C1_url_restored_witness :
    reachedPushSection (update_with_token wBase ("origin") none).2 = true ∧
    lastSetUrl (update_with_token wBase ("origin") none).2 = some wBase.remoteUrl :=
  ⟨by decide, C1_url_restored wBase ("origin") none (by decide)⟩

/-- C2 (counterexample): a rebase-pull failure whose message matches none of
the three recognized signatures does not propagate as a fatal error and
the run does continue to the push step: at `w2` the pull raises
`"remote end hung up unexpectedly"`, yet the run rewrites the push URL and
reports success. -/
theorem C2_counterexample :
    (update_with_token w2 ("origin") none).1 = Outcome.success ("origin") ("main") ∧
    reachedPushSection (update_with_token w2 ("origin") none).2 = true := by
  decide

/-- C2 (amended): a fetch/rebase failure whose message matches none of the
three recognized signatures is caught and swallowed: the run continues to
the push step (the push URL is rewritten) and its result is that of the
push — success or a push failure — not the original fetch/rebase error. -/
theorem C2_amended_swallowed (w : World) (remote : String) (branch : Option String)
    (t msg : String)
    (hd : w.skipPush = false) (ht : w.githubToken = some t) (hne : t ≠ "")
    (hl : w.lockAcquireOk = true)
    (hrec : isRecent (removeStaleIndexLock w.indexLockExists w.indexLockMtime w.now) = false)
    (herr : w.fetchError = some msg ∨ (w.fetchError = none ∧ w.pullError = some msg))
    (hcl : classifyGitError msg = ErrClass.other) :
    reachedPushSection (update_with_token w remote branch).2 = true ∧
    ((update_with_token w remote branch).1 =
        Outcome.success remote (resolveBranch branch w.headDetached w.activeBranch) ∨
      (update_with_token w remote branch).1 =
        Outcome.error (SyncError.pushFailed remote
          (resolveBranch branch w.headDetached w.activeBranch))) := by
  unfold update_with_token
  rw [hd, ht, hl]
  rcases hchk : removeStaleIndexLock w.indexLockExists w.indexLockMtime w.now
    with _ | a | a
  on_goal 3 => rw [hchk] at hrec; simp [isRecent] at hrec
  all_goals (
    rcases herr with hfe | ⟨hfe, hpe⟩
    · rw [hfe]
      cases hdirty : w.isDirty <;>
        cases hpp : w.pushPlainOk <;> cases hpr : w.pushRetryOk <;>
        simp [hne, hcl, hdirty, pushStep, hpp, hpr, reachedPushSection, isSetUrl]
    · rw [hfe, hpe]
      cases hdirty : w.isDirty <;>
        cases hpp : w.pushPlainOk <;> cases hpr : w.pushRetryOk <;>
        simp [hne, hcl, hdirty, pushStep, hpp, hpr, reachedPushSection, isSetUrl])

theorem C2_amended_swallowed_witness :
    reachedPushSection (update_with_token w2 ("origin") none).2 = true ∧
    ((update_with_token w2 ("origin") none).1 =
        Outcome.success ("origin") (resolveBranch none w2.headDetached w2.activeBranch) ∨
      (update_with_token w2 ("origin") none).1 =
        Outcome.error (SyncError.pushFailed ("origin")
          (resolveBranch none w2.headDetached w2.activeBranch))) :=
  C2_amended_swallowed w2 ("origin") none ("tok")
    ("remote end hung up unexpectedly") rfl rfl (by decide) rfl (by decide)
    (Or.inr ⟨rfl, rfl⟩) (by decide)

/-- C7: when the plain push fails, the run retries exactly once with the
explicit refspec + upstream-tracking form; it succeeds (on the resolved
branch) exactly when the retry succeeds, and fails with the push error
when the retry also fails. -/
theorem C7_push_retry (w : World) (remote : String) (branch : Option String)
    (hreach : reachedPushSection (update_with_token w remote branch).2 = true)
    (hfail : w.pushPlainOk = false) :
    List.countP isRetryPush (update_with_token w remote branch).2 = 1 ∧
    ((update_with_token w remote branch).1 =
        Outcome.success remote (resolveBranch branch w.headDetached w.activeBranch)
      ↔ w.pushRetryOk = true) ∧
    (w.pushRetryOk = false →
      (update_with_token w remote branch).1 =
        Outcome.error (SyncError.pushFailed remote
          (resolveBranch branch w.headDetached w.activeBranch))) := by
  obtain ⟨t, -, hout, -, hcnt⟩ := push_reached_facts w remote branch hreach
  rw [hout, hcnt]
  unfold pushStep
  rw [hfail]
  cases hpr : w.pushRetryOk <;> simp [hpr, isRetryPush]

theorem C7_push_retry_witness :
    List.countP isRetryPush (update_with_token w7 ("origin") none).2 = 1 ∧
    ((update_with_token w7 ("origin") none).1 =
        Outcome.success ("origin") (resolveBranch none w7.headDetached w7.activeBranch)
      ↔ w7.pushRetryOk = true) ∧
    (w7.pushRetryOk = false →
      (update_with_token w7 ("origin") none).1 =
        Outcome.error (SyncError.pushFailed ("origin")
          (resolveBranch none w7.headDetached w7.activeBranch))) :=
  C7_push_retry w7 ("origin") none (by decide) rfl

/-- C8 (counterexample): the claim fails when the explicit parameter is the
empty string: at `w8` (current branch `dev`, head attached) the call with
parameter `some ""` rebases `dev`, not the supplied parameter value. -/
theorem C8_counterexample :
    resolveBranch (some ("")) false ("dev") = "dev" ∧
    Action.pullRebase ("origin") ("dev") ∈
      (update_with_token w8 ("origin") (some (""))).2 ∧
    Action.pullRebase ("origin") ("") ∉
      (update_with_token w8 ("origin") (some (""))).2 := by
  decide

/-- C8 (amended): the branch used for rebase and push is the explicit
parameter when a non-empty one is supplied; an absent or empty parameter
falls back to the current branch, or to `main` when the head is detached;
and a run that reaches the rebase pull uses exactly this resolved name. -/
theorem C8_amended_branch_resolution (w : World) (remote : String)
    (b : Option String) (t : String)
    (hd : w.skipPush = false) (ht : w.githubToken = some t) (hne : t ≠ "")
    (hl : w.lockAcquireOk = true)
    (hrec : isRecent (removeStaleIndexLock w.indexLockExists w.indexLockMtime w.now) = false)
    (hfe : w.fetchError = none) :
    Action.pullRebase remote (resolveBranch b w.headDetached w.activeBranch) ∈
      (update_with_token w remote b).2 ∧
    (∀ s, b = some s → s ≠ "" → resolveBranch b w.headDetached w.activeBranch = s) ∧
    ((b = none ∨ b = some ("")) → w.headDetached = false →
      resolveBranch b w.headDetached w.activeBranch = w.activeBranch) ∧
    ((b = none ∨ b = some ("")) → w.headDetached = true →
      resolveBranch b w.headDetached w.activeBranch = "main") := by
  refine ⟨?_, ?_, ?_, ?_⟩
  · unfold update_with_token
    rw [hd, ht, hl, hfe]
    rcases hchk : removeStaleIndexLock w.indexLockExists w.indexLockMtime w.now
      with _ | a | a
    on_goal 3 => rw [hchk] at hrec; simp [isRecent] at hrec
    all_goals (
      rcases hpe : w.pullError with _ | msg
      · cases hdirty : w.isDirty <;>
          cases hpp : w.pushPlainOk <;> cases hpr : w.pushRetryOk <;>
          simp [hne, hdirty, pushStep, hpp, hpr]
      · rcases hc : classifyGitError msg with _ | _ | _ | _ <;>
          cases hdirty : w.isDirty <;>
          cases hpp : w.pushPlainOk <;> cases hpr : w.pushRetryOk <;>
          simp [hne, hc, hdirty, pushStep, hpp, hpr])
  · intro s hb hsne
    subst hb
    simp [resolveBranch, hsne]
  · rintro (hb | hb) hdet <;> subst hb <;> simp [resolveBranch, hdet]
  · rintro (hb | hb) hdet <;> subst hb <;> simp [resolveBranch, hdet]

theorem C8_amended_branch_resolution_witness :
    Action.pullRebase ("origin") ("dev") ∈
      (update_with_token w8 ("origin") (some (""))).2 ∧
    resolveBranch (some ("")) false ("dev") = "dev" := by
  have h := C8_amended_branch_resolution w8 ("origin") (some ("")) ("tok")
    rfl rfl (by decide) rfl (by decide) rfl
  exact ⟨h.1, h.2.2.1 (Or.inr rfl) rfl⟩

end UpdateGit
